import Mathlib

/-!
# StoryCrafter MCP route — shallow embedding

Embedding of `src/app/api/mcp/route.ts` (the MCP transport layer of the
StoryCrafter service) together with spec-modelled fragments of the
generation pipeline that is documented but not shipped in this repository.

JavaScript conventions are modelled explicitly:
* a possibly-absent (`undefined`/missing) field is an `Option`;
* `x || d` on strings is `jsOrStr` (the empty string is falsy);
* `x || 0` on our non-negative numeric fields coincides with `Option.getD 0`;
* a thrown `Error` is the `Except.error` branch carrying `error.message`.
-/

/-- JavaScript `x || d` for an optional string: `undefined` and `""` are falsy. -/
def jsOrStr (v : Option String) (d : String) : String :=
  match v with
  | none => d
  | some s => if s = "" then d else s

/-- Rendering of a possibly-undefined string inside a JS template literal. -/
def jsDisplayOpt (o : Option String) : String := o.getD "undefined"

-- ============================================================
-- Data model of a backlog object as `handleGetBacklogSummary` reads it
-- (route.ts lines 169-199): every field it dereferences with `?.` or
-- defaults with `||` is optional.
-- ============================================================

/-- A story as read by the summary handler: only `estimated_hours` is used. -/
structure Story where
  estimated_hours : Option Nat
deriving Repr, DecidableEq

/-- An epic as read by the summary handler: `id`, `title`, `stories`. -/
structure Epic where
  id : Option String
  title : Option String
  stories : Option (List Story)
deriving Repr, DecidableEq

/-- The `project` sub-object: only `name` is read (`backlog.project?.name`). -/
structure Project where
  name : Option String
deriving Repr, DecidableEq

/-- A backlog object as read by the summary handler. -/
structure Backlog where
  project : Option Project
  epics : Option (List Epic)
deriving Repr, DecidableEq

/-- One entry of `epics_breakdown` (route.ts lines 183-188). -/
structure EpicBreakdown where
  id : Option String
  title : Option String
  story_count : Nat
  total_hours : Nat
deriving Repr, DecidableEq

/-- The summary object built at route.ts lines 176-189. -/
structure BacklogSummary where
  project_name : String
  total_epics : Nat
  total_stories : Nat
  total_estimated_hours : Nat
  epics_breakdown : List EpicBreakdown
deriving Repr, DecidableEq

/-- `story.estimated_hours || 0` (route.ts lines 181, 187). -/
def storyHours (s : Story) : Nat := s.estimated_hours.getD 0

/-- `epic.stories?.length || 0` (route.ts lines 179, 186). -/
def epicStoryCount (e : Epic) : Nat := (e.stories.map List.length).getD 0

/-- `epic.stories?.reduce((sum, story) => sum + (story.estimated_hours || 0), 0) || 0`
(route.ts lines 181, 187); the trailing `|| 0` is the identity on the
non-negative reduce result and covers the `undefined` case of `?.`. -/
def epicHours (e : Epic) : Nat :=
  (e.stories.map (fun ss => ss.foldl (fun sum s => sum + storyHours s) 0)).getD 0

/-- The pure computation of the summary object at route.ts lines 176-189. -/
def getBacklogSummary (b : Backlog) : BacklogSummary :=
  { project_name := jsOrStr (b.project.bind Project.name) "Unknown"
  , total_epics := (b.epics.map List.length).getD 0
  , total_stories :=
      (b.epics.map (fun es => es.foldl (fun sum e => sum + epicStoryCount e) 0)).getD 0
  , total_estimated_hours :=
      (b.epics.map (fun es => es.foldl (fun sum e => sum + epicHours e) 0)).getD 0
  , epics_breakdown :=
      (b.epics.map (fun es => es.map (fun e =>
        ⟨e.id, e.title, epicStoryCount e, epicHours e⟩))).getD [] }

/-- The `backlog` argument as the handler's guard sees it: absent (or any
falsy value such as `undefined`/`null`), a non-object primitive
(`typeof backlog !== 'object'`), or an actual object. -/
inductive BacklogArg where
  | missing
  | nonObject
  | obj (b : Backlog)
deriving Repr, DecidableEq

/-- `handleGetBacklogSummary` (route.ts lines 169-199): throws on a missing or
non-object argument, otherwise returns the summary. -/
def handleGetBacklogSummary : BacklogArg → Except String BacklogSummary
  | .missing => .error "backlog is required and must be an object"
  | .nonObject => .error "backlog is required and must be an object"
  | .obj b => .ok (getBacklogSummary b)

-- ============================================================
-- Claim-side formulations (refinement targets, phrased as in the spec)
-- ============================================================

/-- Claim-side formulation: the sum over all epics of the number of stories
in that epic (an absent `stories` field contributes zero). -/
def specTotalStories (epics : List Epic) : Nat :=
  (epics.map (fun e => (e.stories.getD []).length)).sum

/-- Claim-side formulation: the exact sum of every story's `estimated_hours`
across all epics (absent hours contribute zero). -/
def specTotalHours (epics : List Epic) : Nat :=
  (epics.map (fun e => ((e.stories.getD []).map storyHours).sum)).sum

-- ============================================================
-- Helper lemmas
-- ============================================================

lemma foldl_add_map {α : Type} (f : α → Nat) :
    ∀ (l : List α) (n : Nat), l.foldl (fun s x => s + f x) n = n + (l.map f).sum := by
  intro l
  induction l with
  | nil => simp
  | cons a t ih =>
      intro n
      simp only [List.foldl_cons, List.map_cons, List.sum_cons, ih]
      omega

lemma epicStoryCount_eq (e : Epic) : epicStoryCount e = (e.stories.getD []).length := by
  cases h : e.stories <;> simp [epicStoryCount, h]

lemma epicHours_eq (e : Epic) : epicHours e = ((e.stories.getD []).map storyHours).sum := by
  cases h : e.stories <;> simp [epicHours, h, foldl_add_map]

/-- C1: for every backlog object, the summary's `total_epics` is the length of
the epics sequence, `total_stories` the sum over epics of their story counts,
and `total_estimated_hours` the exact sum of every story's `estimated_hours`
across all epics (absent optional fields defaulting to empty/zero). -/
theorem backlog_summary_totals (b : Backlog) :
    (getBacklogSummary b).total_epics = (b.epics.getD []).length ∧
    (getBacklogSummary b).total_stories = specTotalStories (b.epics.getD []) ∧
    (getBacklogSummary b).total_estimated_hours = specTotalHours (b.epics.getD []) := by
  refine ⟨?_, ?_, ?_⟩ <;>
    cases h : b.epics <;>
      simp [getBacklogSummary, specTotalStories, specTotalHours, h, foldl_add_map,
        epicStoryCount_eq, epicHours_eq]

/-- C7: the per-epic breakdown lists exactly the epics of the input backlog, in
the backlog's original order, with each entry's `id` and `title` taken from the
corresponding epic; the summary never reorders epics. -/
theorem backlog_summary_breakdown_order (b : Backlog) :
    (getBacklogSummary b).epics_breakdown.map (fun d => (d.id, d.title))
      = (b.epics.getD []).map (fun e => (e.id, e.title)) ∧
    (getBacklogSummary b).epics_breakdown.length = (b.epics.getD []).length := by
  constructor <;> cases h : b.epics <;> simp [getBacklogSummary, h, List.map_map]

/-- C8: `get_backlog_summary` is deterministic and read-only: on equal backlog
inputs it returns identical summaries, and its value is a pure function of the
input backlog (the source performs no mutation, so it embeds as a pure
function of the argument). -/
theorem backlog_summary_deterministic (b₁ b₂ : Backlog) (h : b₁ = b₂) :
    handleGetBacklogSummary (.obj b₁) = handleGetBacklogSummary (.obj b₂) ∧
    handleGetBacklogSummary (.obj b₁) = .ok (getBacklogSummary b₁) := by
  subst h; exact ⟨rfl, rfl⟩

theorem backlog_summary_deterministic_witness :
    handleGetBacklogSummary (.obj ⟨none, none⟩) = handleGetBacklogSummary (.obj ⟨none, none⟩) ∧
    handleGetBacklogSummary (.obj ⟨none, none⟩) = .ok (getBacklogSummary ⟨none, none⟩) :=
  backlog_summary_deterministic ⟨none, none⟩ ⟨none, none⟩ rfl

/-- C9: the summary handler is total on every object-typed backlog — absent
`epics` yields zero counts and an empty breakdown, absent `stories` or
`estimated_hours` count as empty/zero, absent `project.name` reports
`"Unknown"` — and it throws exactly when the `backlog` argument is absent or
not an object. -/
theorem backlog_summary_total_on_objects :
    (∀ b, handleGetBacklogSummary (.obj b) = .ok (getBacklogSummary b)) ∧
    (∀ arg, (∃ m, handleGetBacklogSummary arg = .error m) ↔
      (arg = .missing ∨ arg = .nonObject)) ∧
    (∀ b, b.epics = none →
      (getBacklogSummary b).total_epics = 0 ∧
      (getBacklogSummary b).total_stories = 0 ∧
      (getBacklogSummary b).total_estimated_hours = 0 ∧
      (getBacklogSummary b).epics_breakdown = []) ∧
    (∀ e, e.stories = none → epicStoryCount e = 0 ∧ epicHours e = 0) ∧
    (∀ s, s.estimated_hours = none → storyHours s = 0) ∧
    (∀ b, b.project.bind Project.name = none →
      (getBacklogSummary b).project_name = "Unknown") := by
  refine ⟨fun b => rfl, fun arg => ?_, fun b hb => ?_, fun e he => ?_, fun s hs => ?_,
    fun b hb => ?_⟩
  · cases arg <;> simp [handleGetBacklogSummary]
  · simp [getBacklogSummary, hb]
  · simp [epicStoryCount, epicHours, he]
  · simp [storyHours, hs]
  · simp [getBacklogSummary, hb, jsOrStr]

theorem backlog_summary_total_on_objects_witness :
    handleGetBacklogSummary (.obj ⟨some ⟨some "App"⟩, none⟩)
      = .ok (getBacklogSummary ⟨some ⟨some "App"⟩, none⟩) ∧
    (∃ m, handleGetBacklogSummary .missing = .error m) ∧
    (getBacklogSummary ⟨none, none⟩).total_epics = 0 ∧
    epicStoryCount ⟨some "EPIC-1", some "Auth", none⟩ = 0 ∧
    storyHours ⟨none⟩ = 0 ∧
    (getBacklogSummary ⟨none, some []⟩).project_name = "Unknown" := by
  have h := backlog_summary_total_on_objects
  exact ⟨h.1 _, (h.2.1 .missing).mpr (Or.inl rfl), (h.2.2.1 ⟨none, none⟩ rfl).1,
    (h.2.2.2.1 ⟨some "EPIC-1", some "Auth", none⟩ rfl).1,
    h.2.2.2.2.1 ⟨none⟩ rfl, h.2.2.2.2.2 ⟨none, some []⟩ rfl⟩

-- ============================================================
-- `handleGenerateBacklog` (route.ts lines 109-167)
-- ============================================================

/-- A consensus message (route.ts lines 16-19). -/
structure ConsensusMessage where
  role : String
  content : String
deriving Repr, DecidableEq

/-- Optional project metadata (route.ts lines 21-28). -/
structure ProjectMetadata where
  project_name : Option String
  project_description : Option String
  target_users : Option String
  platform : Option String
  timeline : Option String
  team_size : Option String
deriving Repr, DecidableEq

/-- The `consensus_messages` argument as the guards at route.ts lines 112-118
see it: absent (or another falsy value), a truthy non-array value, or an
actual array of messages. -/
inductive MessagesArg where
  | missing
  | nonArray
  | list (ms : List ConsensusMessage)
deriving Repr, DecidableEq

/-- The arguments record destructured at route.ts line 110. -/
structure GenArgs where
  consensus_messages : MessagesArg
  project_metadata : Option ProjectMetadata
  use_full_context : Option Bool
deriving Repr, DecidableEq

/-- The JSON payload posted to the StoryCrafter service (route.ts lines 124-128). -/
structure BacklogRequest where
  consensus_messages : List ConsensusMessage
  project_metadata : Option ProjectMetadata
  use_full_context : Bool
deriving Repr, DecidableEq

/-- The `metadata` block of a successful service response (read at route.ts
lines 149-152). -/
structure ServiceMetadata where
  total_epics : Nat
  total_stories : Nat
  total_estimated_hours : Nat
  generated_at : String
deriving Repr, DecidableEq

/-- `response.data` of the downstream service: `success` flag, optional
`error` message, the generated backlog, and the metadata block. -/
structure ServiceData where
  success : Bool
  error : Option String
  backlog : Option Backlog
  metadata : Option ServiceMetadata
deriving Repr, DecidableEq

/-- Outcome of the `axios.post` call, as the catch at route.ts lines 158-165
discriminates it: a parsed response; an error with `error.response` set
(provider responded with an error status, carrying `response.data?.detail`
and `response.statusText`); an error with only `error.request` set (no
response received); or a request-setup error with neither. -/
inductive AxiosOutcome where
  | ok (data : ServiceData)
  | respError (detail : Option String) (statusText : String)
  | noResponse
  | requestSetupError (message : String)
deriving Repr, DecidableEq

/-- The `summary` block of the handler's success value (route.ts lines 148-153). -/
structure GenerateSummary where
  total_epics : Nat
  total_stories : Nat
  total_estimated_hours : Nat
  generated_at : String
deriving Repr, DecidableEq

/-- The handler's success value (route.ts lines 141-157). -/
structure GenerateResult where
  success : Bool
  backlog : Option Backlog
  summary : GenerateSummary
deriving Repr, DecidableEq

/-- Message of the JS `TypeError` thrown at route.ts line 149 when
`response.data.metadata` is `undefined`; it is caught by the catch's final
branch like any other non-axios error. -/
def metadataTypeErrorMsg : String :=
  "Cannot read properties of undefined (reading 'total_epics')"

/-- `handleGenerateBacklog` (route.ts lines 109-167), parameterised by the
configured service URL (`STORYCRAFTER_SERVICE_URL`, route.ts line 10) and by
the network capability `post` standing for the `axios.post` call.

A `throw` inside the `try` block (the `!response.data.success` branch at
lines 137-139, or the metadata `TypeError`) is caught by the same `catch`;
such an `Error` has neither `error.response` nor `error.request`, so it is
re-thrown as `Request error: <message>` by the final branch at line 164. -/
def handleGenerateBacklog (serviceUrl : String)
    (post : BacklogRequest → AxiosOutcome) (args : GenArgs) :
    Except String GenerateResult :=
  match args.consensus_messages with
  | .missing => .error "consensus_messages is required and must be an array"
  | .nonArray => .error "consensus_messages is required and must be an array"
  | .list ms =>
    if ms.length = 0 then .error "consensus_messages cannot be empty"
    else
      match post ⟨ms, args.project_metadata, args.use_full_context.getD true⟩ with
      | .ok data =>
        if data.success then
          match data.metadata with
          | some md =>
              .ok ⟨true, data.backlog,
                ⟨md.total_epics, md.total_stories, md.total_estimated_hours,
                  md.generated_at⟩⟩
          | none => .error ("Request error: " ++ metadataTypeErrorMsg)
        else
          .error ("Request error: " ++ jsOrStr data.error "Backlog generation failed")
      | .respError detail statusText =>
          .error ("StoryCrafter service error: " ++ jsOrStr detail statusText)
      | .noResponse =>
          .error ("StoryCrafter service unavailable: " ++ serviceUrl)
      | .requestSetupError m => .error ("Request error: " ++ m)

/-- C2: when `consensus_messages` is absent, not an array, or empty,
`generate_backlog` fails before any backend call is made: the result is the
corresponding validation error and does not depend on the backend at all. -/
theorem generate_backlog_requires_messages (serviceUrl : String)
    (post post' : BacklogRequest → AxiosOutcome) (args : GenArgs) :
    (args.consensus_messages = .missing ∨ args.consensus_messages = .nonArray →
      handleGenerateBacklog serviceUrl post args
        = .error "consensus_messages is required and must be an array") ∧
    (args.consensus_messages = .list [] →
      handleGenerateBacklog serviceUrl post args
        = .error "consensus_messages cannot be empty") ∧
    (args.consensus_messages = .missing ∨ args.consensus_messages = .nonArray ∨
        args.consensus_messages = .list [] →
      handleGenerateBacklog serviceUrl post args
        = handleGenerateBacklog serviceUrl post' args) := by
  refine ⟨fun h => ?_, fun h => ?_, fun h => ?_⟩
  · rcases h with h | h <;> simp [handleGenerateBacklog, h]
  · simp [handleGenerateBacklog, h]
  · rcases h with h | h | h <;> simp [handleGenerateBacklog, h]

theorem generate_backlog_requires_messages_witness :
    handleGenerateBacklog "https://storycrafter-service.vercel.app"
        (fun _ => .noResponse) ⟨.missing, none, none⟩
      = .error "consensus_messages is required and must be an array" ∧
    handleGenerateBacklog "https://storycrafter-service.vercel.app"
        (fun _ => .noResponse) ⟨.list [], none, none⟩
      = .error "consensus_messages cannot be empty" ∧
    handleGenerateBacklog "https://storycrafter-service.vercel.app"
        (fun _ => .noResponse) ⟨.nonArray, none, none⟩
      = handleGenerateBacklog "https://storycrafter-service.vercel.app"
        (fun _ => .ok ⟨true, none, none, none⟩) ⟨.nonArray, none, none⟩ := by
  refine ⟨?_, ?_, ?_⟩
  · exact (generate_backlog_requires_messages _ _ (fun _ => .noResponse) _).1 (Or.inl rfl)
  · exact (generate_backlog_requires_messages _ _ (fun _ => .noResponse) _).2.1 rfl
  · exact (generate_backlog_requires_messages _ _ _ _).2.2 (Or.inr (Or.inl rfl))

/-- The two catch-branch messages can never coincide: they diverge at
character 21 (`error:` versus `unavailable:`), whatever the detail text and
configured URL are. -/
lemma serviceError_ne_unavailable (s t : String) :
    "StoryCrafter service error: " ++ s ≠ "StoryCrafter service unavailable: " ++ t := by
  intro h
  have hd := congrArg String.data h
  rw [String.data_append, String.data_append] at hd
  have h21 : (("StoryCrafter service error: " : String).data ++ s.data)[21]?
      = (("StoryCrafter service unavailable: " : String).data ++ t.data)[21]? := by
    rw [hd]
  rw [List.getElem?_append_left (by decide), List.getElem?_append_left (by decide)] at h21
  exact absurd h21 (by decide)

/-- C4: a provider-side rejection (the provider responded with an error) and
an unreachable provider (no response) surface as errors with provably
different messages, so callers can tell the two failure kinds apart. -/
theorem backend_failures_distinguishable (serviceUrl : String) (args : GenArgs)
    (ms : List ConsensusMessage) (hm : args.consensus_messages = .list ms)
    (hne : ms ≠ []) (detail : Option String) (statusText : String) :
    handleGenerateBacklog serviceUrl (fun _ => .respError detail statusText) args
      = .error ("StoryCrafter service error: " ++ jsOrStr detail statusText) ∧
    handleGenerateBacklog serviceUrl (fun _ => .noResponse) args
      = .error ("StoryCrafter service unavailable: " ++ serviceUrl) ∧
    ("StoryCrafter service error: " ++ jsOrStr detail statusText)
      ≠ ("StoryCrafter service unavailable: " ++ serviceUrl) := by
  have hlen : ¬ ms.length = 0 := by simpa [List.length_eq_zero] using hne
  exact ⟨by simp [handleGenerateBacklog, hm, hlen],
    by simp [handleGenerateBacklog, hm, hlen],
    serviceError_ne_unavailable _ _⟩

theorem backend_failures_distinguishable_witness :
    handleGenerateBacklog "https://storycrafter-service.vercel.app"
        (fun _ => .respError (some "rate limited") "Too Many Requests")
        ⟨.list [⟨"system", "Project: Test App"⟩], none, none⟩
      = .error "StoryCrafter service error: rate limited" ∧
    handleGenerateBacklog "https://storycrafter-service.vercel.app"
        (fun _ => .noResponse)
        ⟨.list [⟨"system", "Project: Test App"⟩], none, none⟩
      = .error "StoryCrafter service unavailable: https://storycrafter-service.vercel.app" ∧
    ("StoryCrafter service error: rate limited"
      ≠ "StoryCrafter service unavailable: https://storycrafter-service.vercel.app") := by
  have h := backend_failures_distinguishable "https://storycrafter-service.vercel.app"
    ⟨.list [⟨"system", "Project: Test App"⟩], none, none⟩
    [⟨"system", "Project: Test App"⟩] rfl (by decide)
    (some "rate limited") "Too Many Requests"
  exact ⟨h.1, h.2.1, by simp⟩

/-- C5: whenever the downstream response reports `success: false`, the handler
raises an error whose message carries the reported error message (or the
generic `Backlog generation failed`), re-wrapped by the catch as
`Request error: …`; it never returns a success value. -/
theorem failed_response_raises_error (serviceUrl : String) (args : GenArgs)
    (ms : List ConsensusMessage) (hm : args.consensus_messages = .list ms)
    (hne : ms ≠ []) (data : ServiceData) (hs : data.success = false) :
    handleGenerateBacklog serviceUrl (fun _ => .ok data) args
      = .error ("Request error: " ++ jsOrStr data.error "Backlog generation failed") ∧
    ∀ r, handleGenerateBacklog serviceUrl (fun _ => .ok data) args ≠ .ok r := by
  have hlen : ¬ ms.length = 0 := by simpa [List.length_eq_zero] using hne
  have h1 : handleGenerateBacklog serviceUrl (fun _ => .ok data) args
      = .error ("Request error: " ++ jsOrStr data.error "Backlog generation failed") := by
    simp [handleGenerateBacklog, hm, hlen, hs]
  exact ⟨h1, fun r hr => by rw [h1] at hr; exact Except.noConfusion hr⟩

theorem failed_response_raises_error_witness :
    handleGenerateBacklog "https://storycrafter-service.vercel.app"
        (fun _ => .ok ⟨false, some "model overloaded", none, none⟩)
        ⟨.list [⟨"system", "Project: Test App"⟩], none, none⟩
      = .error "Request error: model overloaded" ∧
    handleGenerateBacklog "https://storycrafter-service.vercel.app"
        (fun _ => .ok ⟨false, none, none, none⟩)
        ⟨.list [⟨"system", "Project: Test App"⟩], none, none⟩
      = .error "Request error: Backlog generation failed" := by
  have h1 := failed_response_raises_error "https://storycrafter-service.vercel.app"
    ⟨.list [⟨"system", "Project: Test App"⟩], none, none⟩
    [⟨"system", "Project: Test App"⟩] rfl (by decide)
    ⟨false, some "model overloaded", none, none⟩ rfl
  have h2 := failed_response_raises_error "https://storycrafter-service.vercel.app"
    ⟨.list [⟨"system", "Project: Test App"⟩], none, none⟩
    [⟨"system", "Project: Test App"⟩] rfl (by decide)
    ⟨false, none, none, none⟩ rfl
  exact ⟨by simpa [jsOrStr] using h1.1, by simpa [jsOrStr] using h2.1⟩

-- ============================================================
-- `POST` dispatcher (route.ts lines 205-267)
-- ============================================================

/-- One entry of `MCP_TOOLS` (route.ts lines 42-103); the JSON `inputSchema`
blob is static data the dispatcher never inspects and is not modelled. -/
structure MCPTool where
  name : String
  description : String
deriving Repr, DecidableEq

/-- `MCP_TOOLS` (route.ts lines 42-103): the two tools this transport exposes. -/
def MCP_TOOLS : List MCPTool :=
  [⟨"generate_backlog",
    "Generate complete project backlog from VISHKAR 3-agent consensus discussion. Returns 6-8 epics with 20-40 detailed user stories, acceptance criteria, technical tasks, story points, and time estimates."⟩,
   ⟨"get_backlog_summary",
    "Get summary statistics from a generated backlog (epic count, story count, total hours, etc.)"⟩]

/-- The `arguments` record a tool call carries: the union of the fields the
two handlers destructure out of it. -/
structure ToolArgs where
  consensus_messages : MessagesArg
  project_metadata : Option ProjectMetadata
  use_full_context : Option Bool
  backlog : BacklogArg
deriving Repr, DecidableEq

/-- The empty record `{}` substituted at route.ts line 218 when
`params?.arguments` is absent: every field the handlers look for is missing. -/
def ToolArgs.empty : ToolArgs := ⟨.missing, none, none, .missing⟩

/-- The fields `handleGenerateBacklog` destructures from the arguments record. -/
def ToolArgs.genArgs (a : ToolArgs) : GenArgs :=
  ⟨a.consensus_messages, a.project_metadata, a.use_full_context⟩

/-- `body.params` (route.ts lines 30-36). -/
structure MCPParams where
  tool : Option String
  arguments : Option ToolArgs
deriving Repr, DecidableEq

/-- A parsed MCP request body (route.ts lines 30-36). -/
structure MCPRequestBody where
  method : String
  params : Option MCPParams
deriving Repr, DecidableEq

/-- The JSON body of a `NextResponse` produced by `POST`. -/
inductive JsonBody where
  | toolsListing (tools : List MCPTool)
  | genResult (r : GenerateResult)
  | summaryResult (s : BacklogSummary)
  | jsonError (code : Int) (message : String)
deriving Repr, DecidableEq

/-- An HTTP response: status code plus JSON body (`NextResponse.json` defaults
to status 200). -/
structure HttpResponse where
  status : Nat
  body : JsonBody
deriving Repr, DecidableEq

/-- The dispatch logic of `POST` (route.ts lines 205-267), parameterised by
the two tool handlers it routes to.  `parsed` is the outcome of
`await request.json()`: `.error m` models a parse failure whose thrown
message is `m`, landing in the outer catch (lines 255-266).  An error thrown
by a handler lands in the same catch: code -32603, status 500, message
`error.message || 'Internal error'`.  Unknown methods and unknown tool names
are answered at lines 230-239 and 244-253: code -32601, status 400. -/
def POSTdispatch (hGen : ToolArgs → Except String GenerateResult)
    (hSum : ToolArgs → Except String BacklogSummary)
    (parsed : Except String MCPRequestBody) : HttpResponse :=
  match parsed with
  | .error m => ⟨500, .jsonError (-32603) (jsOrStr (some m) "Internal error")⟩
  | .ok body =>
    match body.method with
    | "tools/list" => ⟨200, .toolsListing MCP_TOOLS⟩
    | "tools/call" =>
      let toolName := body.params.bind MCPParams.tool
      let args := (body.params.bind MCPParams.arguments).getD ToolArgs.empty
      match toolName with
      | some "generate_backlog" =>
        match hGen args with
        | .ok r => ⟨200, .genResult r⟩
        | .error m => ⟨500, .jsonError (-32603) (jsOrStr (some m) "Internal error")⟩
      | some "get_backlog_summary" =>
        match hSum args with
        | .ok s => ⟨200, .summaryResult s⟩
        | .error m => ⟨500, .jsonError (-32603) (jsOrStr (some m) "Internal error")⟩
      | t => ⟨400, .jsonError (-32601) ("Unknown tool: " ++ jsDisplayOpt t)⟩
    | m => ⟨400, .jsonError (-32601) ("Method not found: " ++ m)⟩

/-- `POST` (route.ts lines 205-267): the dispatcher instantiated with the two
concrete handlers of this route. -/
def POST (serviceUrl : String) (post : BacklogRequest → AxiosOutcome)
    (parsed : Except String MCPRequestBody) : HttpResponse :=
  POSTdispatch (fun a => handleGenerateBacklog serviceUrl post a.genArgs)
    (fun a => handleGetBacklogSummary a.backlog) parsed

/-- C10: the dispatcher invokes a tool handler only for the exact method
`tools/call` with a known tool name; an unknown method or unknown tool yields
code -32601 with HTTP status 400 and the response does not depend on the
handlers at all; a handler error and a request-parse error yield code -32603
with HTTP status 500. -/
theorem post_dispatch_routing
    (hGen hGen' : ToolArgs → Except String GenerateResult)
    (hSum hSum' : ToolArgs → Except String BacklogSummary)
    (body : MCPRequestBody) :
    (body.method ≠ "tools/list" → body.method ≠ "tools/call" →
      POSTdispatch hGen hSum (.ok body)
        = ⟨400, .jsonError (-32601) ("Method not found: " ++ body.method)⟩ ∧
      POSTdispatch hGen hSum (.ok body) = POSTdispatch hGen' hSum' (.ok body)) ∧
    (body.method = "tools/call" →
      body.params.bind MCPParams.tool ≠ some "generate_backlog" →
      body.params.bind MCPParams.tool ≠ some "get_backlog_summary" →
      POSTdispatch hGen hSum (.ok body)
        = ⟨400, .jsonError (-32601)
            ("Unknown tool: " ++ jsDisplayOpt (body.params.bind MCPParams.tool))⟩ ∧
      POSTdispatch hGen hSum (.ok body) = POSTdispatch hGen' hSum' (.ok body)) ∧
    (∀ m, body.method = "tools/call" →
      body.params.bind MCPParams.tool = some "generate_backlog" →
      hGen ((body.params.bind MCPParams.arguments).getD ToolArgs.empty) = .error m →
      POSTdispatch hGen hSum (.ok body)
        = ⟨500, .jsonError (-32603) (jsOrStr (some m) "Internal error")⟩) ∧
    (∀ m, body.method = "tools/call" →
      body.params.bind MCPParams.tool = some "get_backlog_summary" →
      hSum ((body.params.bind MCPParams.arguments).getD ToolArgs.empty) = .error m →
      POSTdispatch hGen hSum (.ok body)
        = ⟨500, .jsonError (-32603) (jsOrStr (some m) "Internal error")⟩) ∧
    (∀ m, POSTdispatch hGen hSum (.error m)
      = ⟨500, .jsonError (-32603) (jsOrStr (some m) "Internal error")⟩) := by
  refine ⟨fun h1 h2 => ?_, fun hc ht1 ht2 => ?_, fun m hc ht hg => ?_,
    fun m hc ht hs => ?_, fun m => rfl⟩
  · have key : ∀ (g : ToolArgs → Except String GenerateResult)
        (s : ToolArgs → Except String BacklogSummary),
        POSTdispatch g s (.ok body)
          = ⟨400, .jsonError (-32601) ("Method not found: " ++ body.method)⟩ := by
      intro g s
      simp only [POSTdispatch]
    exact ⟨key hGen hSum, by rw [key hGen hSum, key hGen' hSum']⟩
  · have key : ∀ (g : ToolArgs → Except String GenerateResult)
        (s : ToolArgs → Except String BacklogSummary),
        POSTdispatch g s (.ok body)
          = ⟨400, .jsonError (-32601)
              ("Unknown tool: " ++ jsDisplayOpt (body.params.bind MCPParams.tool))⟩ := by
      intro g s
      simp only [POSTdispatch, hc]
    exact ⟨key hGen hSum, by rw [key hGen hSum, key hGen' hSum']⟩
  · simp only [POSTdispatch, hc, ht, hg]
  · simp only [POSTdispatch, hc, ht, hs]

theorem post_dispatch_routing_witness :
    POSTdispatch (fun _ => .error "boom") (fun a => handleGetBacklogSummary a.backlog)
        (.ok ⟨"tools/noop", none⟩)
      = ⟨400, .jsonError (-32601) ("Method not found: " ++ "tools/noop")⟩ ∧
    POSTdispatch (fun _ => .error "boom") (fun a => handleGetBacklogSummary a.backlog)
        (.ok ⟨"tools/call", some ⟨some "foo", none⟩⟩)
      = ⟨400, .jsonError (-32601) ("Unknown tool: " ++ jsDisplayOpt (some "foo"))⟩ ∧
    POSTdispatch (fun _ => .error "boom") (fun a => handleGetBacklogSummary a.backlog)
        (.ok ⟨"tools/call", some ⟨some "generate_backlog", none⟩⟩)
      = ⟨500, .jsonError (-32603) (jsOrStr (some "boom") "Internal error")⟩ ∧
    POSTdispatch (fun _ => .error "boom") (fun a => handleGetBacklogSummary a.backlog)
        (.error "bad json")
      = ⟨500, .jsonError (-32603) (jsOrStr (some "bad json") "Internal error")⟩ := by
  have h1 := post_dispatch_routing (fun _ => .error "boom") (fun _ => .error "boom")
    (fun a => handleGetBacklogSummary a.backlog) (fun a => handleGetBacklogSummary a.backlog)
    ⟨"tools/noop", none⟩
  have h2 := post_dispatch_routing (fun _ => .error "boom") (fun _ => .error "boom")
    (fun a => handleGetBacklogSummary a.backlog) (fun a => handleGetBacklogSummary a.backlog)
    ⟨"tools/call", some ⟨some "foo", none⟩⟩
  have h3 := post_dispatch_routing (fun _ => .error "boom") (fun _ => .error "boom")
    (fun a => handleGetBacklogSummary a.backlog) (fun a => handleGetBacklogSummary a.backlog)
    ⟨"tools/call", some ⟨some "generate_backlog", none⟩⟩
  exact ⟨(h1.1 (by decide) (by decide)).1, (h2.2.1 rfl (by decide) (by decide)).1,
    h3.2.2.1 "boom" rfl rfl rfl, h1.2.2.2.2 "bad json"⟩

-- ============================================================
-- Spec-modelled pipeline fragments.  The generation pipeline itself
-- (the StoryCrafter service) ships separately: this repository contains
-- only its documentation and this transport client, so the definitions
-- below are modelled from spec sections 3, 4.7 and 6.
-- ============================================================

/-- Modelled from the spec: the pipeline's Story record (spec section 3);
the pipeline implementation is not in this repository. -/
structure PipelineStory where
  id : String
  title : String
  description : String
  acceptance_criteria : List String
  technical_tasks : List String
  priority : String
  story_points : Nat
  estimated_hours : Nat
  dependencies : List String
  tags : List String
  layer : String
  regeneration_notes : Option String
deriving Repr, DecidableEq

/-- Modelled from the spec: the pipeline's Epic record (spec section 3);
the pipeline implementation is not in this repository. -/
structure PipelineEpic where
  id : String
  title : String
  description : String
  priority : String
  category : String
  story_count_target : Nat
  stories : List PipelineStory
  regeneration_notes : Option String
deriving Repr, DecidableEq

/-- Modelled from the spec: the regeneration prompt of spec section 4.7 —
the serialized original record and the feedback text prepended to a prompt
of the original planning/expansion structure, instructing the backend to
revise rather than invent from scratch. -/
def epicRegenPrompt (e : PipelineEpic) (feedback transcript : String) : String :=
  "Original epic: " ++ e.id ++ " | " ++ e.title ++ " | " ++ e.description ++
    "\nFeedback: " ++ feedback ++ "\nTranscript:\n" ++ transcript ++
    "\nRevise the epic above; do not invent a new one from scratch."

/-- Modelled from the spec: the story-regeneration prompt of spec section
4.7, scoped to the owning epic as in section 4.5. -/
def storyRegenPrompt (e : PipelineEpic) (s : PipelineStory)
    (feedback transcript : String) : String :=
  "Epic: " ++ e.id ++ " | " ++ e.title ++
    "\nOriginal story: " ++ s.id ++ " | " ++ s.title ++ " | " ++ s.description ++
    "\nFeedback: " ++ feedback ++ "\nTranscript:\n" ++ transcript ++
    "\nRevise the story above; do not invent a new one from scratch."

/-- Modelled from the spec: `RegenerationEngine.regenerate_epic` (spec
section 4.7, missing from this repository).  The backend capability stands
for invocation, extraction and validation of a single-epic payload; its
failure is surfaced wrapped in `GenerationFailedError`.  The original `id`
is preserved unconditionally — a different id in the backend output is
discarded — and `regeneration_notes` is filled from the backend's own
explanation when present, otherwise with a generic note. -/
def regenerate_epic (backend : String → Except String PipelineEpic)
    (e : PipelineEpic) (feedback transcript : String) : Except String PipelineEpic :=
  match backend (epicRegenPrompt e feedback transcript) with
  | .error err => .error ("GenerationFailedError: " ++ err)
  | .ok out =>
      .ok { out with
            id := e.id
            regeneration_notes :=
              some (out.regeneration_notes.getD "Regenerated in response to feedback") }

/-- Modelled from the spec: `RegenerationEngine.regenerate_story` (spec
section 4.7, missing from this repository); preserves the original story's
`id` unconditionally. -/
def regenerate_story (backend : String → Except String PipelineStory)
    (e : PipelineEpic) (s : PipelineStory) (feedback transcript : String) :
    Except String PipelineStory :=
  match backend (storyRegenPrompt e s feedback transcript) with
  | .error err => .error ("GenerationFailedError: " ++ err)
  | .ok out =>
      .ok { out with
            id := s.id
            regeneration_notes :=
              some (out.regeneration_notes.getD "Regenerated in response to feedback") }

/-- C6: regeneration preserves identity — for any backend behaviour, epic,
story, feedback and transcript, a successful `regenerate_epic` returns the
original epic id and a successful `regenerate_story` returns the original
story id; any different id produced by the backend is discarded. -/
theorem regeneration_preserves_id
    (be : String → Except String PipelineEpic)
    (bs : String → Except String PipelineStory)
    (e : PipelineEpic) (s : PipelineStory) (feedback transcript : String) :
    (∀ out, regenerate_epic be e feedback transcript = .ok out → out.id = e.id) ∧
    (∀ out, regenerate_story bs e s feedback transcript = .ok out → out.id = s.id) := by
  constructor <;> intro out hout
  · unfold regenerate_epic at hout
    cases hb : be (epicRegenPrompt e feedback transcript) with
    | error err => rw [hb] at hout; exact Except.noConfusion hout
    | ok o =>
        rw [hb] at hout
        cases hout
        rfl
  · unfold regenerate_story at hout
    cases hb : bs (storyRegenPrompt e s feedback transcript) with
    | error err => rw [hb] at hout; exact Except.noConfusion hout
    | ok o =>
        rw [hb] at hout
        cases hout
        rfl

theorem regeneration_preserves_id_witness :
    (regenerate_epic
        (fun _ => .ok ⟨"EPIC-9", "Auth v2", "d", "High", "MVP", 4, [], none⟩)
        ⟨"EPIC-1", "Auth", "d", "High", "MVP", 4, [], none⟩
        "tighten scope" "t").map PipelineEpic.id = .ok "EPIC-1" ∧
    (regenerate_story
        (fun _ => .ok ⟨"EPIC-7-3", "Login v2", "d", [], [], "P1", 3, 8, [], [], "fullstack", none⟩)
        ⟨"EPIC-1", "Auth", "d", "High", "MVP", 4, [], none⟩
        ⟨"EPIC-1-2", "Login", "d", [], [], "P1", 3, 8, [], [], "fullstack", none⟩
        "tighten scope" "t").map PipelineStory.id = .ok "EPIC-1-2" := by
  have h := regeneration_preserves_id
    (fun _ => .ok ⟨"EPIC-9", "Auth v2", "d", "High", "MVP", 4, [], none⟩)
    (fun _ => .ok ⟨"EPIC-7-3", "Login v2", "d", [], [], "P1", 3, 8, [], [], "fullstack", none⟩)
    ⟨"EPIC-1", "Auth", "d", "High", "MVP", 4, [], none⟩
    ⟨"EPIC-1-2", "Login", "d", [], [], "P1", 3, 8, [], [], "fullstack", none⟩
    "tighten scope" "t"
  exact ⟨congrArg Except.ok (h.1 _ rfl), congrArg Except.ok (h.2 _ rfl)⟩

/-- Modelled from the spec: the five logical operations through which the
pipeline is invoked (spec section 6); the pipeline implementation is not in
this repository, and its documentation here lists the same five service
methods (`generate_from_consensus` being `generate_backlog`). -/
def pipelineOperations : List String :=
  ["generate_epics", "generate_stories", "generate_backlog",
   "regenerate_epic", "regenerate_story"]

/-- C3: the pipeline exposes exactly five logical operations — no more, no
fewer, no duplicates — named `generate_epics`, `generate_stories`,
`generate_backlog`, `regenerate_epic` and `regenerate_story`; they are plain
functions of their inputs, tied to no transport. -/
theorem pipeline_exposes_five_operations :
    pipelineOperations.length = 5 ∧ pipelineOperations.Nodup ∧
    (∀ op, op ∈ pipelineOperations ↔
      op = "generate_epics" ∨ op = "generate_stories" ∨ op = "generate_backlog" ∨
      op = "regenerate_epic" ∨ op = "regenerate_story") := by
  refine ⟨rfl, by decide, fun op => ?_⟩
  simp [pipelineOperations]

theorem pipeline_exposes_five_operations_witness :
    ("generate_backlog" ∈ pipelineOperations) ∧ pipelineOperations.length = 5 :=
  ⟨(pipeline_exposes_five_operations.2.2 "generate_backlog").mpr
      (Or.inr (Or.inr (Or.inl rfl))),
    pipeline_exposes_five_operations.1⟩
